import Mathlib

/-!
# Verification of the Structural–BIM Interchange Engine

Shallow embedding of `backend/bim/ifc_enhanced.py` (class `IFCEnhancedProcessor`):
the bidirectional mapping between the structural domain-model bundle and the
IFC entity graph.  Python dictionaries are modelled as association lists with
insertion-order upsert semantics, optional dictionary keys as `Option`, numeric
scalars as `ℚ`, and the IFC file as the ordered list of created entities
(sub-entities such as placements, cartesian points and boundary conditions are
folded into their owning entity's constructor; identifiers such as `GlobalId`
and the numeric `id()` are modelled by the entity's creation index).
-/

namespace Strumind

abbrev Scalar := ℚ

/-- A 3-component vector (coordinates / translations). -/
structure Vec3 where
  x : Scalar
  y : Scalar
  z : Scalar
deriving DecidableEq, Repr

/-- A 3×3 matrix given by its rows (rotation part of a placement). -/
structure Mat3 where
  r0 : Vec3
  r1 : Vec3
  r2 : Vec3
deriving DecidableEq, Repr

def Vec3.dot (a b : Vec3) : Scalar := a.x * b.x + a.y * b.y + a.z * b.z

def Vec3.add (a b : Vec3) : Vec3 := ⟨a.x + b.x, a.y + b.y, a.z + b.z⟩

def Vec3.zero : Vec3 := ⟨0, 0, 0⟩

def Mat3.col0 (m : Mat3) : Vec3 := ⟨m.r0.x, m.r1.x, m.r2.x⟩
def Mat3.col1 (m : Mat3) : Vec3 := ⟨m.r0.y, m.r1.y, m.r2.y⟩
def Mat3.col2 (m : Mat3) : Vec3 := ⟨m.r0.z, m.r1.z, m.r2.z⟩

def Mat3.mulVec (m : Mat3) (v : Vec3) : Vec3 :=
  ⟨m.r0.dot v, m.r1.dot v, m.r2.dot v⟩

def Mat3.mul (m n : Mat3) : Mat3 :=
  ⟨⟨m.r0.dot n.col0, m.r0.dot n.col1, m.r0.dot n.col2⟩,
   ⟨m.r1.dot n.col0, m.r1.dot n.col1, m.r1.dot n.col2⟩,
   ⟨m.r2.dot n.col0, m.r2.dot n.col1, m.r2.dot n.col2⟩⟩

def Mat3.identity : Mat3 := ⟨⟨1, 0, 0⟩, ⟨0, 1, 0⟩, ⟨0, 0, 1⟩⟩

/-- An affine transform: the rotation and translation parts of a 4×4
homogeneous placement matrix (`placement[:3, :3]` and `placement[:3, 3]`). -/
structure Transform where
  rotation : Mat3
  translation : Vec3
deriving DecidableEq, Repr

/-- Affine composition `parent ∘ child`. -/
def Transform.comp (p c : Transform) : Transform :=
  ⟨p.rotation.mul c.rotation, (p.rotation.mulVec c.translation).add p.translation⟩

def Transform.identity : Transform := ⟨Mat3.identity, Vec3.zero⟩

/-- Conversion of a coordinate list (as stored in an `IfcCartesianPoint`) to a
3-vector, missing components defaulting to `0`. -/
def listToVec (l : List Scalar) : Vec3 := ⟨l.getD 0 0, l.getD 1 0, l.getD 2 0⟩

/-- `placement[:3, 3].tolist()`. -/
def vecToList (v : Vec3) : List Scalar := [v.x, v.y, v.z]

/-- `placement[:3, :3].tolist()`. -/
def matToList (m : Mat3) : List (List Scalar) :=
  [vecToList m.r0, vecToList m.r1, vecToList m.r2]

/-- An `IfcLocalPlacement`: an optional reference (`PlacementRelTo`) to a parent
local placement, and the local transform derived from its `RelativePlacement`
(an `IfcAxis2Placement3D`; an axis placement carrying only a `Location` and no
axis directions denotes a pure translation with identity rotation). -/
structure LocalPlacement where
  placementRelTo : Option Nat
  relativePlacement : Transform
deriving DecidableEq, Repr

/-- Modelled from the spec: the parent-chain placement resolution performed by
the external `ifcopenshell.util.placement.get_local_placement` utility, which
is not part of this repository's sources.  Per the spec's Placement Resolver
contract (§4.1): walk the parent chain, composing local transforms in
leaf-to-root order; a placement with a missing or unresolvable parent
reference is treated as having an identity parent transform (never an error).
`env` resolves parent references to placements; the fuel argument bounds the
chain walk (real placement chains are finite and acyclic). -/
def get_local_placement (env : Nat → Option LocalPlacement) :
    Nat → LocalPlacement → Transform
  | 0, p => p.relativePlacement
  | fuel + 1, p =>
    match p.placementRelTo with
    | none => Transform.identity.comp p.relativePlacement
    | some r =>
      match env r with
      | none => Transform.identity.comp p.relativePlacement
      | some q => (get_local_placement env fuel q).comp p.relativePlacement

/-! ## Python dictionaries as association lists -/

/-- Python `dict` upsert: overwrite in place when the key exists, else append
(insertion-order semantics). -/
def dictInsert {κ α : Type} [BEq κ] : List (κ × α) → κ → α → List (κ × α)
  | [], k, v => [(k, v)]
  | (k', v') :: t, k, v =>
    if k' == k then (k, v) :: t else (k', v') :: dictInsert t k v

/-- Python `dict.get(k)`: `some` value or `none` when absent. -/
def dictGet {κ α : Type} [BEq κ] (d : List (κ × α)) (k : κ) : Option α :=
  match d with
  | [] => none
  | (k', v) :: t => if k' == k then some v else dictGet t k

/-- Python `dict.get(k, default)`. -/
def dictGetD {κ α : Type} [BEq κ] (d : List (κ × α)) (k : κ) (dflt : α) : α :=
  (dictGet d k).getD dflt

/-! ## Entity graph

The typed entities of the interchange format that `ifc_enhanced.py` creates or
reads.  The `other`/`otherX` constructors stand for entity classes distinct
from the ones the code dispatches on by `is_a`. -/

/-- An `IfcProfileDef`: the two recognized concrete classes plus any other
profile class (whose type tag is distinct from the two recognized tags). -/
inductive Profile
  | rect (profileName : Option String) (xDim yDim : Scalar)
  | iShape (profileName : Option String)
      (overallWidth overallDepth webThickness flangeThickness : Scalar)
  | other (typeTag : String) (profileName : Option String)
deriving DecidableEq, Repr

/-- `profile.is_a()` for a profile entity. -/
def Profile.typeTag : Profile → String
  | .rect _ _ _ => "IfcRectangleProfileDef"
  | .iShape _ _ _ _ _ => "IfcIShapeProfileDef"
  | .other t _ => t

/-- `profile.ProfileName` (present on every profile class, possibly null). -/
def Profile.name : Profile → Option String
  | .rect n _ _ => n
  | .iShape n _ _ _ _ => n
  | .other _ n => n

/-- A property inside a property set: an `IfcPropertySingleValue` (whose
`NominalValue` may be null) or any other property class. -/
inductive PropEnt
  | singleValue (propName : String) (nominalValue : Option Scalar)
  | otherProp (typeTag : String) (propName : String)
deriving DecidableEq, Repr

/-- The `RelatingPropertyDefinition` of an `IfcRelDefinesByProperties`:
a name (possibly null), whether it `is_a("IfcPropertySet")`, and its
properties. -/
structure PropSetEnt where
  psetName : Option String
  isPropSet : Bool
  hasProperties : List PropEnt
deriving DecidableEq, Repr

/-- An entry of an element's `IsDefinedBy` inverse attribute. -/
inductive RelDefines
  | byProperties (relatingPropertyDefinition : PropSetEnt)
  | otherRel (typeTag : String)
deriving DecidableEq, Repr

/-- The `RelatingMaterial` of an `IfcRelAssociatesMaterial`. -/
inductive MaterialSelect
  | mat (matName : String)
  | layerSetUsage (firstLayerMaterialName : String)
  | otherMaterial (typeTag : String)
deriving DecidableEq, Repr

/-- An entry of an element's `HasAssociations` inverse attribute. -/
inductive RelAssoc
  | associatesMaterial (relatingMaterial : MaterialSelect)
  | otherAssoc (typeTag : String)
deriving DecidableEq, Repr

/-- An item of a shape representation. -/
inductive RepItem
  | extrudedAreaSolid (depth : Scalar) (sweptArea : Profile)
  | rectangleProfileItem (xDim yDim : Scalar)
  | otherItem (typeTag : String)
deriving DecidableEq, Repr

/-- An `IfcShapeRepresentation`. -/
structure RepEnt where
  representationIdentifier : Option String
  representationType : Option String
  items : List RepItem
deriving DecidableEq, Repr

/-- An `IfcProductDefinitionShape` (`element.Representation`). -/
structure ProductRep where
  representations : List RepEnt
deriving DecidableEq, Repr

/-- The fields of a physical/structural element entity that the code reads or
writes. -/
structure ElemCore where
  name : Option String
  description : Option String
  objectPlacement : Option LocalPlacement
  representation : Option ProductRep
  hasAssociations : List RelAssoc
  isDefinedBy : List RelDefines
  predefinedType : Option String
deriving DecidableEq, Repr

/-- The element entity classes the importer enumerates / the exporter creates. -/
inductive ElemKind
  | beam
  | column
  | slab
  | wall
  | structuralMember
deriving DecidableEq, Repr

/-- An `IfcBoundaryNodeCondition` with its six stiffness flags (the exporter
writes booleans into them; the importer tests their truthiness). -/
structure BoundaryNodeCondition where
  translationalStiffnessX : Bool
  translationalStiffnessY : Bool
  translationalStiffnessZ : Bool
  rotationalStiffnessX : Bool
  rotationalStiffnessY : Bool
  rotationalStiffnessZ : Bool
deriving DecidableEq, Repr

/-- An `IfcStructuralPointConnection`. -/
structure PointConn where
  name : Option String
  objectPlacement : Option LocalPlacement
  appliedCondition : Option BoundaryNodeCondition
deriving DecidableEq, Repr

/-- An entry of a material's `HasProperties`. -/
inductive MatPropSet
  | materialProperties (properties : List PropEnt)
  | otherMatProps (typeTag : String)
deriving DecidableEq, Repr

/-- An `IfcMaterial`. -/
structure MaterialEnt where
  name : String
  description : Option String
  hasProperties : List MatPropSet
deriving DecidableEq, Repr

/-- An `IfcStructuralLoad`: the two recognized concrete classes (whose scalar
fields may be absent) plus any other load class. -/
inductive LoadEnt
  | singleForce (name : Option String)
      (forceX forceY forceZ momentX momentY momentZ : Option Scalar)
  | linearForce (name : Option String)
      (linearForceX linearForceY linearForceZ
        linearMomentX linearMomentY linearMomentZ : Option Scalar)
  | otherLoad (typeTag : String) (name : Option String)
deriving DecidableEq, Repr

/-- `load.is_a()` for a structural load entity. -/
def LoadEnt.typeTag : LoadEnt → String
  | .singleForce _ _ _ _ _ _ _ => "IfcStructuralLoadSingleForce"
  | .linearForce _ _ _ _ _ _ _ => "IfcStructuralLoadLinearForce"
  | .otherLoad t _ => t

def LoadEnt.name : LoadEnt → Option String
  | .singleForce n _ _ _ _ _ _ => n
  | .linearForce n _ _ _ _ _ _ => n
  | .otherLoad _ n => n

/-- An `IfcStructuralLoadCase`. -/
structure LoadCaseEnt where
  name : Option String
  description : Option String
  actionType : Option String
  actionSource : Option String
deriving DecidableEq, Repr

/-- An `IfcBuildingStorey`. -/
structure StoreyEnt where
  name : Option String
  description : Option String
  elevation : Option Scalar
deriving DecidableEq, Repr

/-- An `IfcPostalAddress`. -/
structure AddressEnt where
  addressLines : List String
  town : Option String
  country : Option String
  postalCode : Option String
deriving DecidableEq, Repr

/-- An `IfcBuilding`. -/
structure BuildingEnt where
  name : Option String
  description : Option String
  buildingAddress : Option AddressEnt
deriving DecidableEq, Repr

/-- One entity of the graph.  `gid` is the entity's creation index within its
file, modelling both the `GlobalId` and the numeric `id()` of the real
entities (fresh and unique per created entity). -/
inductive Entity
  | project (gid : Nat) (name : Option String) (description : Option String)
  | site (gid : Nat) (name : Option String)
  | building (gid : Nat) (b : BuildingEnt)
  | storey (gid : Nat) (s : StoreyEnt)
  | space (gid : Nat) (name : Option String) (description : Option String)
  | geomContext (gid : Nat) (contextIdentifier : Option String)
  | material (gid : Nat) (m : MaterialEnt)
  | profileDef (gid : Nat) (p : Profile)
  | pointConnection (gid : Nat) (c : PointConn)
  | element (gid : Nat) (kind : ElemKind) (e : ElemCore)
  | structuralLoad (gid : Nat) (l : LoadEnt)
  | structuralLoadCase (gid : Nat) (lc : LoadCaseEnt)
  | application (gid : Nat) (fullName : String) (version : String)
deriving DecidableEq, Repr

/-- The IFC file: the ordered list of created entities. -/
abbrev IfcFile := List Entity

/-- Append a freshly created entity; its `gid` is the creation index. -/
def addEntity (f : IfcFile) (mk : Nat → Entity) : IfcFile := f ++ [mk f.length]

/-! ## The domain-model bundle

The `structural_data` dictionary consumed by export.  Fields the code reads
with `.get` are `Option`; dictionary-valued fields are association lists.
`node_ids`/`section_id` on an element are the domain `Element`'s ordered node
pair and section reference — they are part of the bundle but the export code
never reads them. -/

structure SpatialItemData where
  id : Option String
  name : Option String
  description : Option String
  type : Option String
  elevation : Option Scalar
deriving DecidableEq, Repr

structure MaterialData where
  id : Option String
  name : Option String
  properties : List (String × Scalar)
deriving DecidableEq, Repr

structure SectionData where
  id : Option String
  name : Option String
  type : Option String
  properties : List (String × Scalar)
deriving DecidableEq, Repr

structure NodeData where
  id : Option String
  name : Option String
  coordinates : Option (List Scalar)
  boundary_conditions : List (String × String)
deriving DecidableEq, Repr

structure ElementData where
  id : Option String
  name : Option String
  type : Option String
  node_ids : Option (String × String)
  section_id : Option String
deriving DecidableEq, Repr

structure LoadData where
  id : Option String
  name : Option String
  type : Option String
  values : List (String × Scalar)
deriving DecidableEq, Repr

structure LoadCaseData where
  id : Option String
  name : Option String
  action_type : Option String
  action_source : Option String
deriving DecidableEq, Repr

structure ProjectInfo where
  name : Option String
  site_name : Option String
  building_name : Option String
deriving DecidableEq, Repr

structure StructuralData where
  project_info : ProjectInfo
  spatial_structure : List SpatialItemData
  materials : List MaterialData
  sections : List SectionData
  nodes : List NodeData
  elements : List ElementData
  loads : List LoadData
  load_cases : List LoadCaseData
deriving DecidableEq, Repr

/-- The processor's session state (`self.ifc_file` plus the root-entity
references). -/
structure Processor where
  ifc_file : Option IfcFile
  projectRef : Option Nat
  siteRef : Option Nat
  buildingRef : Option Nat
deriving DecidableEq, Repr

/-- A freshly constructed `IFCEnhancedProcessor()`. -/
def Processor.init : Processor := ⟨none, none, none, none⟩

/-! ## Exporter

`export_structural_model` and its `_create_*` helpers.  The id-keyed maps the
helpers build (`material_map`, `section_map`, `node_map`, `element_map`) map a
bundle record's `id` (an `Option String`, since `.get('id')` may be absent)
to the created entity's `gid`.  The `aggregate.assign_object` relationship
entities are not modelled (no claim concerns them); the nested placement
sub-entities (`IfcCartesianPoint`, `IfcAxis2Placement3D`, `IfcLocalPlacement`)
and the material property-set sub-entity are folded into the owning entity's
constructor. -/

/-- The id → gid session maps. -/
abbrev EntityMap := List (Option String × Nat)

/-- `create_new_ifc_project`: the fresh file holds an unnamed root `IfcProject`
(the object the source assigns to `self.ifc_file`), `self.project`, the three
geometric representation contexts of `_create_project_context`, `self.site`
and `self.building`, in creation order. -/
def create_new_ifc_project (project_data : ProjectInfo) : Processor :=
  let f0 : IfcFile := addEntity [] (fun g => .project g none none)
  let f1 := addEntity f0
    (fun g => .project g (some (project_data.name.getD "StruMind Project")) none)
  let f2 := addEntity f1 (fun g => .geomContext g none)
  let f3 := addEntity f2 (fun g => .geomContext g (some "Body"))
  let f4 := addEntity f3 (fun g => .geomContext g (some "Axis"))
  let f5 := addEntity f4
    (fun g => .site g (some (project_data.site_name.getD "Project Site")))
  let f6 := addEntity f5
    (fun g => .building g
      ⟨some (project_data.building_name.getD "Main Building"), none, none⟩)
  { ifc_file := some f6, projectRef := some f0.length, siteRef := some f4.length,
    buildingRef := some f5.length }

/-- The storey payload created for one spatial-structure record
(`root.create_entity` with the record's name, then `storey.Elevation =
storey_data.get('elevation', 0.0)`). -/
def storeyPayloadOf (storey_data : SpatialItemData) : StoreyEnt :=
  ⟨some (storey_data.name.getD "Level"), none, some (storey_data.elevation.getD 0)⟩

def create_building_storey_entity (storey_data : SpatialItemData) (g : Nat) : Entity :=
  .storey g (storeyPayloadOf storey_data)

/-- `_create_building_storeys`: one fresh storey entity per record whose
`type` is `'storey'`, appended to the file. -/
def create_building_storeys (f : IfcFile) (spatial_structure : List SpatialItemData) :
    IfcFile :=
  (spatial_structure.filter (fun item => item.type == some "storey")).foldl
    (fun acc storey_data => addEntity acc (create_building_storey_entity storey_data)) f

/-- The material payload created for one material record; when the record's
property bag is non-empty a `MaterialProperties` property set holding all of
its pairs is attached. -/
def materialPayloadOf (material_data : MaterialData) : MaterialEnt :=
  ⟨material_data.name.getD "Material", none,
    if material_data.properties.isEmpty then []
    else [.materialProperties
      (material_data.properties.map (fun kv => .singleValue kv.1 (some kv.2)))]⟩

def create_material_entity (material_data : MaterialData) (g : Nat) : Entity :=
  .material g (materialPayloadOf material_data)

/-- `_create_materials`. -/
def create_materials (f : IfcFile) (materials : List MaterialData) :
    IfcFile × EntityMap :=
  materials.foldl
    (fun acc material_data =>
      (addEntity acc.1 (create_material_entity material_data),
       dictInsert acc.2 material_data.id acc.1.length))
    (f, [])

/-- The profile entity created for one section record: dispatch on
`section_data.get('type', 'IfcRectangleProfileDef')`, any unrecognized type
falling back to a 300 × 600 rectangle. -/
def create_section_profile (section_data : SectionData) : Profile :=
  let section_type := section_data.type.getD "IfcRectangleProfileDef"
  let properties := section_data.properties
  if section_type == "IfcRectangleProfileDef" then
    .rect (some (section_data.name.getD "Section"))
      (dictGetD properties "x_dim" 300) (dictGetD properties "y_dim" 600)
  else if section_type == "IfcIShapeProfileDef" then
    .iShape (some (section_data.name.getD "Section"))
      (dictGetD properties "overall_width" 200) (dictGetD properties "overall_depth" 400)
      (dictGetD properties "web_thickness" 10) (dictGetD properties "flange_thickness" 15)
  else
    .rect (some (section_data.name.getD "Section")) 300 600

/-- `_create_sections` (its `material_map` parameter is received but never
read by the source function). -/
def create_sections (f : IfcFile) (sections : List SectionData)
    (material_map : EntityMap) : IfcFile × EntityMap :=
  sections.foldl
    (fun acc section_data =>
      (addEntity acc.1 (fun g => .profileDef g (create_section_profile section_data)),
       dictInsert acc.2 section_data.id acc.1.length))
    (f, [])

/-- The point-connection entity created for one node record: a
translation-only placement at the record's coordinates, and a boundary-node
condition attached when (and only when) the record's `boundary_conditions`
dictionary is non-empty, each stiffness flag set to whether the corresponding
entry equals `'fixed'`. -/
def create_structural_node (node_data : NodeData) : PointConn :=
  let coordinates := node_data.coordinates.getD [0, 0, 0]
  let bc := node_data.boundary_conditions
  { name := some (node_data.name.getD "Node"),
    objectPlacement := some ⟨none, ⟨Mat3.identity, listToVec coordinates⟩⟩,
    appliedCondition :=
      if bc.isEmpty then none
      else some
        ⟨dictGet bc "translation_x" == some "fixed",
         dictGet bc "translation_y" == some "fixed",
         dictGet bc "translation_z" == some "fixed",
         dictGet bc "rotation_x" == some "fixed",
         dictGet bc "rotation_y" == some "fixed",
         dictGet bc "rotation_z" == some "fixed"⟩ }

/-- `_create_structural_nodes`. -/
def create_structural_nodes (f : IfcFile) (nodes : List NodeData) :
    IfcFile × EntityMap :=
  nodes.foldl
    (fun acc node_data =>
      (addEntity acc.1 (fun g => .pointConnection g (create_structural_node node_data)),
       dictInsert acc.2 node_data.id acc.1.length))
    (f, [])

/-- The element core the exporter writes: only the name is set. -/
def exportElemCore (name : String) : ElemCore :=
  ⟨some name, none, none, none, [], [], none⟩

/-- The element entity created for one element record: dispatch on
`element_data.get('type', 'beam')`; any type other than `'beam'`/`'column'`
becomes an `IfcStructuralMember`. -/
def create_structural_element (element_data : ElementData) : ElemKind × ElemCore :=
  let element_type := element_data.type.getD "beam"
  if element_type == "beam" then
    (.beam, exportElemCore (element_data.name.getD "Beam"))
  else if element_type == "column" then
    (.column, exportElemCore (element_data.name.getD "Column"))
  else
    (.structuralMember, exportElemCore (element_data.name.getD "Member"))

/-- `_create_structural_elements` (its `node_map` and `section_map` parameters
are received but never read by the source function: the created element
entities carry no node or section references). -/
def create_structural_elements (f : IfcFile) (elements : List ElementData)
    (node_map : EntityMap) (section_map : EntityMap) : IfcFile × EntityMap :=
  elements.foldl
    (fun acc element_data =>
      let ke := create_structural_element element_data
      (addEntity acc.1 (fun g => .element g ke.1 ke.2),
       dictInsert acc.2 element_data.id acc.1.length))
    (f, [])

/-- `_create_loads`: only records of type `'IfcStructuralLoadSingleForce'`
(the default) produce a load entity; other kinds produce nothing.  The
`node_map` and `element_map` parameters are received but never read. -/
def create_loads (f : IfcFile) (loads : List LoadData)
    (node_map : EntityMap) (element_map : EntityMap) : IfcFile :=
  loads.foldl
    (fun acc load_data =>
      let load_type := load_data.type.getD "IfcStructuralLoadSingleForce"
      let values := load_data.values
      if load_type == "IfcStructuralLoadSingleForce" then
        addEntity acc (fun g => .structuralLoad g
          (.singleForce (some (load_data.name.getD "Load"))
            (some (dictGetD values "force_x" 0)) (some (dictGetD values "force_y" 0))
            (some (dictGetD values "force_z" 0)) (some (dictGetD values "moment_x" 0))
            (some (dictGetD values "moment_y" 0)) (some (dictGetD values "moment_z" 0))))
      else acc)
    f

/-- `_create_load_cases`. -/
def create_load_cases (f : IfcFile) (load_cases : List LoadCaseData) : IfcFile :=
  load_cases.foldl
    (fun acc load_case_data => addEntity acc (fun g => .structuralLoadCase g
      ⟨some (load_case_data.name.getD "Load Case"), none,
       some (load_case_data.action_type.getD "PERMANENT_G"),
       some (load_case_data.action_source.getD "DEAD_LOAD_G")⟩))
    f

/-- The `if not self.ifc_file: self.create_new_ifc_project(...)` step of
`export_structural_model`. -/
def sessionProcessor (p : Processor) (structural_data : StructuralData) : Processor :=
  if p.ifc_file.isNone then create_new_ifc_project structural_data.project_info else p

/-- The session file the seven construction steps of an export call start
from. -/
def sessionFile (p : Processor) (structural_data : StructuralData) : IfcFile :=
  (sessionProcessor p structural_data).ifc_file.getD []

/-- `export_structural_model`: create a new project when no file exists yet,
then run the seven construction steps in order; returns the updated processor
and the file handed to the codec (`self.ifc_file.write(output_path)`). -/
def export_structural_model (p : Processor) (structural_data : StructuralData) :
    Processor × IfcFile :=
  let p1 := sessionProcessor p structural_data
  let f0 := sessionFile p structural_data
  let f1 := create_building_storeys f0 structural_data.spatial_structure
  let mm := create_materials f1 structural_data.materials
  let sm := create_sections mm.1 structural_data.sections mm.2
  let nm := create_structural_nodes sm.1 structural_data.nodes
  let em := create_structural_elements nm.1 structural_data.elements nm.2 sm.2
  let f5 := create_loads em.1 structural_data.loads nm.2 em.2
  let f6 := create_load_cases f5 structural_data.load_cases
  ({ p1 with ifc_file := some f6 }, f6)

/-- Overwrite the `ApplicationFullName`/`Version` of the file's first
`IfcApplication` entity, when one exists (`self.ifc_file.by_type(
"IfcApplication")[0] if ... else None`). -/
def setFirstApplication : IfcFile → String → String → IfcFile
  | [], _, _ => []
  | .application g _ _ :: t, fullName, version => .application g fullName version :: t
  | e :: t, fullName, version => e :: setFirstApplication t fullName version

/-- `_configure_for_revit`: reads `self.ifc_file.by_type("IfcApplication")`.
When `self.ifc_file` is `None` this attribute access raises `AttributeError`,
modelled by `Except.error`. -/
def configure_for_revit (p : Processor) : Except String Processor :=
  match p.ifc_file with
  | none => .error "AttributeError: NoneType object has no attribute by_type"
  | some f =>
      .ok { p with ifc_file := some (setFirstApplication f "StruMind for Revit" "2024") }

/-- `_configure_for_tekla`. -/
def configure_for_tekla (p : Processor) : Except String Processor :=
  match p.ifc_file with
  | none => .error "AttributeError: NoneType object has no attribute by_type"
  | some f =>
      .ok { p with ifc_file := some (setFirstApplication f "StruMind for Tekla" "2024") }

/-- `export_for_revit`: configure, then run the plain export unchanged. -/
def export_for_revit (p : Processor) (structural_data : StructuralData) :
    Except String (Processor × IfcFile) :=
  (configure_for_revit p).map (fun p1 => export_structural_model p1 structural_data)

/-- `export_for_tekla`: configure, then run the plain export unchanged. -/
def export_for_tekla (p : Processor) (structural_data : StructuralData) :
    Except String (Processor × IfcFile) :=
  (configure_for_tekla p).map (fun p1 => export_structural_model p1 structural_data)

/-! ## Importer

`import_structural_model` and its `_extract_*` helpers, operating on an
arbitrary entity graph.  `self.ifc_file.by_type(C)` is modelled by filtering
the entity list (preserving file order).  Schema attributes accessed through
`hasattr` guards are modelled as `Option` fields, `none` meaning the attribute
is absent. -/

def projectsOf (f : IfcFile) : List (Nat × Option String × Option String) :=
  f.filterMap fun
    | .project g n d => some (g, n, d)
    | _ => none

def buildingsOf (f : IfcFile) : List (Nat × BuildingEnt) :=
  f.filterMap fun
    | .building g b => some (g, b)
    | _ => none

def storeysOf (f : IfcFile) : List (Nat × StoreyEnt) :=
  f.filterMap fun
    | .storey g s => some (g, s)
    | _ => none

def spacesOf (f : IfcFile) : List (Nat × Option String × Option String) :=
  f.filterMap fun
    | .space g n d => some (g, n, d)
    | _ => none

def materialsOf (f : IfcFile) : List (Nat × MaterialEnt) :=
  f.filterMap fun
    | .material g m => some (g, m)
    | _ => none

def profilesOf (f : IfcFile) : List (Nat × Profile) :=
  f.filterMap fun
    | .profileDef g p => some (g, p)
    | _ => none

def pointConnectionsOf (f : IfcFile) : List (Nat × PointConn) :=
  f.filterMap fun
    | .pointConnection g c => some (g, c)
    | _ => none

def elementsOfKind (f : IfcFile) (k : ElemKind) : List (Nat × ElemCore) :=
  f.filterMap fun
    | .element g k' e => if k' == k then some (g, e) else none
    | _ => none

def loadsOf (f : IfcFile) : List (Nat × LoadEnt) :=
  f.filterMap fun
    | .structuralLoad g l => some (g, l)
    | _ => none

def loadCasesOf (f : IfcFile) : List (Nat × LoadCaseEnt) :=
  f.filterMap fun
    | .structuralLoadCase g lc => some (g, lc)
    | _ => none

def applicationsOf (f : IfcFile) : List (Nat × String × String) :=
  f.filterMap fun
    | .application g n v => some (g, n, v)
    | _ => none

/-- Substring containment over character lists (`needle in hay` for Python
strings): some position of `hay` starts with `needle`. -/
def startsWithChars : List Char → List Char → Bool
  | _, [] => true
  | [], _ :: _ => false
  | a :: as, b :: bs => a == b && startsWithChars as bs

def containsChars : List Char → List Char → Bool
  | [], needle => needle.isEmpty
  | a :: as, needle => startsWithChars (a :: as) needle || containsChars as needle

def strContainsSub (hay needle : String) : Bool :=
  containsChars hay.toList needle.toList

/-- Python `str.lower()`, character by character. -/
def strToLower (s : String) : String := String.mk (s.toList.map Char.toLower)

/-- `_extract_building_info`: the metadata record.  A field is `none` when its
dictionary key was never written (e.g. no project/building entity exists);
`some v` holds the possibly-null attribute value. -/
structure AddressInfo where
  street : Option String
  city : Option String
  country : Option String
  postal_code : Option String
deriving DecidableEq, Repr

structure BuildingInfo where
  project_name : Option (Option String)
  project_description : Option (Option String)
  building_name : Option (Option String)
  building_description : Option (Option String)
  address : Option AddressInfo
deriving DecidableEq, Repr

def extract_building_info (f : IfcFile) : BuildingInfo :=
  let base : BuildingInfo := ⟨none, none, none, none, none⟩
  let b1 := match (projectsOf f).head? with
    | some pr => { base with project_name := some pr.2.1,
                             project_description := some pr.2.2 }
    | none => base
  match (buildingsOf f).head? with
  | some bld =>
    let b2 := { b1 with building_name := some bld.2.name,
                        building_description := some bld.2.description }
    match bld.2.buildingAddress with
    | some addr =>
      { b2 with address := some (AddressInfo.mk addr.addressLines.head?
          addr.town addr.country addr.postalCode) }
    | none => b2
  | none => b1

/-- One record of `_extract_spatial_structure`; `elevation = none` for space
records (whose dictionary has no `elevation` key). -/
structure SpatialRecord where
  id : Nat
  name : Option String
  description : Option String
  elevation : Option (Option Scalar)
  type : String
deriving DecidableEq, Repr

def extract_spatial_structure (f : IfcFile) : List SpatialRecord :=
  (storeysOf f).map
    (fun se => ⟨se.1, se.2.name, se.2.description, some se.2.elevation, "storey"⟩)
  ++ (spacesOf f).map (fun sp => ⟨sp.1, sp.2.1, sp.2.2, none, "space"⟩)

/-- `_extract_profile_data`: the `{type, name}` record, extended with
dimensional fields only for the two recognized profile classes. -/
inductive ProfileDims
  | rectDims (x_dim y_dim : Scalar)
  | iDims (overall_width overall_depth web_thickness flange_thickness : Scalar)
  | noDims
deriving DecidableEq, Repr

structure ProfileData where
  typeTag : String
  name : Option String
  dims : ProfileDims
deriving DecidableEq, Repr

def extract_profile_data : Profile → ProfileData
  | .rect n x y => ⟨"IfcRectangleProfileDef", n, .rectDims x y⟩
  | .iShape n ow od wt ft => ⟨"IfcIShapeProfileDef", n, .iDims ow od wt ft⟩
  | .other t n => ⟨t, n, .noDims⟩

/-- `_extract_representation_data`. -/
inductive RepItemParams
  | extrudedParams (depth : Scalar) (swept_area : ProfileData)
  | rectParams (x_dim y_dim : Scalar)
  | emptyParams
deriving DecidableEq, Repr

structure RepItemRecord where
  typeTag : String
  parameters : RepItemParams
deriving DecidableEq, Repr

structure RepRecord where
  typeTag : Option String
  items : List RepItemRecord
deriving DecidableEq, Repr

def extract_representation_data (rep : RepEnt) : RepRecord :=
  ⟨rep.representationType,
   rep.items.map fun
     | .extrudedAreaSolid d sa =>
         ⟨"IfcExtrudedAreaSolid", .extrudedParams d (extract_profile_data sa)⟩
     | .rectangleProfileItem x y => ⟨"IfcRectangleProfileDef", .rectParams x y⟩
     | .otherItem t => ⟨t, .emptyParams⟩⟩

/-- `_extract_geometry`: placement resolved through the placement resolver,
representation taken from the first shape representation identified as
`"Body"`. -/
structure PlacementRecord where
  location : List Scalar
  rotation_matrix : List (List Scalar)
deriving DecidableEq, Repr

structure GeometryRecord where
  placement : Option PlacementRecord
  representation : Option RepRecord
  bounding_box : Option Unit
deriving DecidableEq, Repr

def extract_geometry (env : Nat → Option LocalPlacement) (fuel : Nat)
    (e : ElemCore) : GeometryRecord :=
  { placement := e.objectPlacement.map (fun pl =>
      let t := get_local_placement env fuel pl
      ⟨vecToList t.translation, matToList t.rotation⟩),
    representation := e.representation.bind (fun r =>
      (r.representations.find?
        (fun rep => rep.representationIdentifier == some "Body")).map
        extract_representation_data),
    bounding_box := none }

/-- `_extract_element_material`: first material association; a layer-set usage
reduces to its first layer's material. -/
def extract_element_material (e : ElemCore) : Option String :=
  e.hasAssociations.findSome? fun
    | .associatesMaterial m =>
      match m with
      | .mat n => some n
      | .layerSetUsage firstName => some firstName
      | .otherMaterial _ => none
    | .otherAssoc _ => none

/-- `_extract_element_properties`: single-value entries of all defining
property sets. -/
def extract_element_properties (e : ElemCore) : List (String × Option Scalar) :=
  e.isDefinedBy.foldl
    (fun acc d =>
      match d with
      | .byProperties ps =>
        if ps.isPropSet then
          ps.hasProperties.foldl
            (fun acc2 pr =>
              match pr with
              | .singleValue n v => dictInsert acc2 n v
              | .otherProp _ _ => acc2)
            acc
        else acc
      | .otherRel _ => acc)
    []

/-- One record of `_extract_structural_elements`; `predefined_type = none`
for non-member records (whose dictionary has no `predefined_type` key). -/
structure ElementRecord where
  id : Nat
  name : Option String
  description : Option String
  type : String
  predefined_type : Option (Option String)
  geometry : GeometryRecord
  material : Option String
  properties : List (String × Option Scalar)
deriving DecidableEq, Repr

/-- `_extract_element_data`. -/
def extract_element_data (env : Nat → Option LocalPlacement) (fuel : Nat)
    (gid : Nat) (e : ElemCore) (element_type : String) : ElementRecord :=
  ⟨gid, e.name, e.description, element_type, none, extract_geometry env fuel e,
   extract_element_material e, extract_element_properties e⟩

/-- `_extract_structural_member_data`. -/
def extract_structural_member_data (env : Nat → Option LocalPlacement)
    (fuel : Nat) (gid : Nat) (e : ElemCore) : ElementRecord :=
  ⟨gid, e.name, e.description, "structural_member", some e.predefinedType,
   extract_geometry env fuel e, extract_element_material e,
   extract_element_properties e⟩

/-- `_is_structural_wall`: some defining property set has a truthy name
containing `'structural'` case-insensitively. -/
def is_structural_wall (wall : ElemCore) : Bool :=
  wall.isDefinedBy.any fun
    | .byProperties ps =>
      match ps.psetName with
      | some n => !(n == "") && strContainsSub (strToLower n) "structural"
      | none => false
    | .otherRel _ => false

/-- `_extract_structural_elements`: beams, columns and slabs unconditionally,
walls only when structural, then structural members. -/
def extract_structural_elements (env : Nat → Option LocalPlacement) (fuel : Nat)
    (f : IfcFile) : List ElementRecord :=
  (elementsOfKind f .beam).map (fun be => extract_element_data env fuel be.1 be.2 "beam")
  ++ (elementsOfKind f .column).map
      (fun ce => extract_element_data env fuel ce.1 ce.2 "column")
  ++ (elementsOfKind f .slab).map
      (fun se => extract_element_data env fuel se.1 se.2 "slab")
  ++ ((elementsOfKind f .wall).filter (fun we => is_structural_wall we.2)).map
      (fun we => extract_element_data env fuel we.1 we.2 "wall")
  ++ (elementsOfKind f .structuralMember).map
      (fun me => extract_structural_member_data env fuel me.1 me.2)

/-- `_extract_point_coordinates`: translation of the resolved placement, or
`[0, 0, 0]` when the connection has no placement at all. -/
def extract_point_coordinates (env : Nat → Option LocalPlacement) (fuel : Nat)
    (point_connection : PointConn) : List Scalar :=
  match point_connection.objectPlacement with
  | some pl => vecToList (get_local_placement env fuel pl).translation
  | none => [0, 0, 0]

/-- `_extract_boundary_conditions`: all six DOFs default to `'free'`; an
attached boundary-node condition overwrites each DOF with `'fixed'` when its
stiffness flag is truthy. -/
def extract_boundary_conditions (connection : PointConn) : List (String × String) :=
  match connection.appliedCondition with
  | some c =>
    [("translation_x", if c.translationalStiffnessX then "fixed" else "free"),
     ("translation_y", if c.translationalStiffnessY then "fixed" else "free"),
     ("translation_z", if c.translationalStiffnessZ then "fixed" else "free"),
     ("rotation_x", if c.rotationalStiffnessX then "fixed" else "free"),
     ("rotation_y", if c.rotationalStiffnessY then "fixed" else "free"),
     ("rotation_z", if c.rotationalStiffnessZ then "fixed" else "free")]
  | none =>
    [("translation_x", "free"), ("translation_y", "free"), ("translation_z", "free"),
     ("rotation_x", "free"), ("rotation_y", "free"), ("rotation_z", "free")]

/-- One record of `_extract_structural_nodes`. -/
structure NodeRecord where
  id : Nat
  name : String
  coordinates : List Scalar
  boundary_conditions : List (String × String)
deriving DecidableEq, Repr

/-- `_extract_structural_nodes`: enumerate the point connections, numbering
the fallback names `N1, N2, …` by a counter. -/
def extract_structural_nodes (env : Nat → Option LocalPlacement) (fuel : Nat)
    (f : IfcFile) : List NodeRecord :=
  (pointConnectionsOf f).enum.map (fun ic =>
    let c := ic.2.2
    ⟨ic.2.1,
     (match c.name with
      | some n => if n == "" then "N" ++ toString (ic.1 + 1) else n
      | none => "N" ++ toString (ic.1 + 1)),
     extract_point_coordinates env fuel c,
     extract_boundary_conditions c⟩)

/-- `_extract_material_properties`. -/
def extract_material_properties (m : MaterialEnt) : List (String × Option Scalar) :=
  m.hasProperties.foldl
    (fun acc ps =>
      match ps with
      | .materialProperties props =>
        props.foldl
          (fun acc2 pr =>
            match pr with
            | .singleValue n v => dictInsert acc2 n v
            | .otherProp _ _ => acc2)
          acc
      | .otherMatProps _ => acc)
    []

/-- One record of `_extract_materials`. -/
structure MaterialRecord where
  id : Nat
  name : String
  description : Option String
  properties : List (String × Option Scalar)
deriving DecidableEq, Repr

def extract_materials (f : IfcFile) : List MaterialRecord :=
  (materialsOf f).map
    (fun me => ⟨me.1, me.2.name, me.2.description, extract_material_properties me.2⟩)

/-- One record of `_extract_sections`. -/
structure SectionRecord where
  id : Nat
  name : Option String
  typeTag : String
  properties : ProfileData
deriving DecidableEq, Repr

/-- `_extract_sections`: one record per `IfcProfileDef` entity of the file,
of whatever concrete profile class. -/
def extract_sections (f : IfcFile) : List SectionRecord :=
  (profilesOf f).map
    (fun pe => ⟨pe.1, pe.2.name, pe.2.typeTag, extract_profile_data pe.2⟩)

/-- `_extract_load_values`: dispatch on the load entity's class; each scalar
component defaults to `0.0` when the source field is absent; any other class
yields the empty value map. -/
def extract_load_values (load : LoadEnt) : List (String × Scalar) :=
  match load with
  | .singleForce _ fx fy fz mx my mz =>
    [("force_x", fx.getD 0), ("force_y", fy.getD 0), ("force_z", fz.getD 0),
     ("moment_x", mx.getD 0), ("moment_y", my.getD 0), ("moment_z", mz.getD 0)]
  | .linearForce _ fx fy fz mx my mz =>
    [("linear_force_x", fx.getD 0), ("linear_force_y", fy.getD 0),
     ("linear_force_z", fz.getD 0), ("linear_moment_x", mx.getD 0),
     ("linear_moment_y", my.getD 0), ("linear_moment_z", mz.getD 0)]
  | .otherLoad _ _ => []

/-- One record of `_extract_loads`. -/
structure LoadRecord where
  id : Nat
  name : Option String
  typeTag : String
  values : List (String × Scalar)
deriving DecidableEq, Repr

def extract_loads (f : IfcFile) : List LoadRecord :=
  (loadsOf f).map (fun le => ⟨le.1, le.2.name, le.2.typeTag, extract_load_values le.2⟩)

/-- One record of `_extract_load_cases`. -/
structure LoadCaseRecord where
  id : Nat
  name : Option String
  description : Option String
  action_type : Option String
  action_source : Option String
deriving DecidableEq, Repr

def extract_load_cases (f : IfcFile) : List LoadCaseRecord :=
  (loadCasesOf f).map
    (fun le => ⟨le.1, le.2.name, le.2.description, le.2.actionType, le.2.actionSource⟩)

/-- The bundle returned by `import_structural_model`. -/
structure ImportedData where
  nodes : List NodeRecord
  elements : List ElementRecord
  materials : List MaterialRecord
  sections : List SectionRecord
  loads : List LoadRecord
  load_cases : List LoadCaseRecord
  building_info : BuildingInfo
  spatial_structure : List SpatialRecord
deriving DecidableEq, Repr

/-- `import_structural_model` on a decoded entity graph. -/
def import_structural_model (env : Nat → Option LocalPlacement) (fuel : Nat)
    (f : IfcFile) : ImportedData :=
  { nodes := extract_structural_nodes env fuel f,
    elements := extract_structural_elements env fuel f,
    materials := extract_materials f,
    sections := extract_sections f,
    loads := extract_loads f,
    load_cases := extract_load_cases f,
    building_info := extract_building_info f,
    spatial_structure := extract_spatial_structure f }

/-- Exporting a bundle on a fresh processor and importing the produced graph. -/
def roundTrip (env : Nat → Option LocalPlacement) (fuel : Nat)
    (d : StructuralData) : ImportedData :=
  import_structural_model env fuel (export_structural_model Processor.init d).2

/-! ## Payload projections

The kind-wise payloads of a file, in creation order (the entity data with the
creation index stripped), used to state what each export step appends. -/

def storeyPayloads (f : IfcFile) : List StoreyEnt :=
  f.filterMap fun
    | .storey _ s => some s
    | _ => none

def materialPayloads (f : IfcFile) : List MaterialEnt :=
  f.filterMap fun
    | .material _ m => some m
    | _ => none

def profilePayloads (f : IfcFile) : List Profile :=
  f.filterMap fun
    | .profileDef _ p => some p
    | _ => none

def pointConnPayloads (f : IfcFile) : List PointConn :=
  f.filterMap fun
    | .pointConnection _ c => some c
    | _ => none

def elementPayloads (f : IfcFile) : List (ElemKind × ElemCore) :=
  f.filterMap fun
    | .element _ k e => some (k, e)
    | _ => none

def loadCasePayloads (f : IfcFile) : List LoadCaseEnt :=
  f.filterMap fun
    | .structuralLoadCase _ lc => some lc
    | _ => none

/-! ## Concrete instances used by witnesses and counterexamples -/

/-- An environment resolving no placement references. -/
def env0 : Nat → Option LocalPlacement := fun _ => none

/-- The boundary-condition dictionary of a node all six of whose DOFs are
free — exactly what `_extract_boundary_conditions` produces for an
unconstrained node. -/
def allFreeBC : List (String × String) :=
  [("translation_x", "free"), ("translation_y", "free"), ("translation_z", "free"),
   ("rotation_x", "free"), ("rotation_y", "free"), ("rotation_z", "free")]

def dEmpty : StructuralData := ⟨⟨none, none, none⟩, [], [], [], [], [], [], []⟩

def ndC2 : NodeData := ⟨some "n1", some "N1", some [0, 0, 0], allFreeBC⟩

def edC1 : ElementData := ⟨some "e1", some "B1", some "beam", some ("n1", "n2"), some "s1"⟩

def dC1 : StructuralData := { dEmpty with elements := [edC1] }

def stC3 : SpatialItemData := ⟨some "st1", some "Level 1", none, some "storey", some 3⟩

def dC3 : StructuralData := { dEmpty with spatial_structure := [stC3] }

def ndC4 : NodeData := ⟨some "n1", some "N1", some [1, 2, 3], []⟩

def edC4a : ElementData := ⟨some "e1", some "B1", some "beam", some ("n1", "n2"), none⟩

def edC4b : ElementData := ⟨some "e1", some "B1", some "beam", some ("n2", "n1"), none⟩

def dC4a : StructuralData := { dEmpty with nodes := [ndC4], elements := [edC4a] }

def dC4b : StructuralData := { dEmpty with nodes := [ndC4], elements := [edC4b] }

def fileC5 : IfcFile := [.profileDef 0 (.other "IfcCircleProfileDef" (some "C1"))]

def sdC6 : SectionData := ⟨some "s1", some "S", some "IfcCircleProfileDef", []⟩

def dC6 : StructuralData := { dEmpty with sections := [sdC6] }

/-- A processor already holding a file (with no application entity). -/
def pC8 : Processor := ⟨some [.project 0 (some "P") none], none, none, none⟩

/-- A wall defined by a property set named "Structural Walls". -/
def wallStructural : ElemCore :=
  ⟨some "W1", none, none, none, [],
   [.byProperties ⟨some "Structural Walls", true, []⟩], none⟩

/-- A wall with no defining property sets. -/
def wallPlain : ElemCore := ⟨some "W2", none, none, none, [], [], none⟩

def fileC10 : IfcFile :=
  [.element 0 .wall wallStructural, .element 1 .wall wallPlain,
   .element 2 .beam (exportElemCore "B")]

/-! # Theorems

First the transform and list lemmas, then the fold machinery describing what
each export step appends, then one theorem (plus witness/counterexample) per
claim. -/

theorem Mat3.identity_mul (m : Mat3) : Mat3.identity.mul m = m := by
  cases m with
  | mk a b c =>
    cases a; cases b; cases c
    simp only [Mat3.mul, Mat3.identity, Vec3.dot, Mat3.col0, Mat3.col1, Mat3.col2,
      Mat3.mk.injEq, Vec3.mk.injEq]
    norm_num

theorem Mat3.identity_mulVec (v : Vec3) : Mat3.identity.mulVec v = v := by
  cases v
  simp only [Mat3.mulVec, Mat3.identity, Vec3.dot, Vec3.mk.injEq]
  norm_num

theorem Vec3.add_zero_right (v : Vec3) : v.add Vec3.zero = v := by
  cases v
  simp [Vec3.add, Vec3.zero]

theorem Transform.identity_comp (t : Transform) : Transform.identity.comp t = t := by
  cases t with
  | mk r v =>
    simp [Transform.comp, Transform.identity, Mat3.identity_mul, Mat3.identity_mulVec,
      Vec3.add_zero_right]

theorem get_local_placement_no_parent (env : Nat → Option LocalPlacement)
    (fuel : Nat) (t : Transform) :
    get_local_placement env fuel ⟨none, t⟩ = t := by
  cases fuel with
  | zero => rfl
  | succ n => simp [get_local_placement, Transform.identity_comp]

theorem vecToList_listToVec : ∀ (l : List Scalar), l.length = 3 →
    vecToList (listToVec l) = l
  | [_, _, _], _ => rfl

/-! ## Claim C2 -/

/-- C2: counterexample.  The node `ndC2` has all six DOFs free (its
boundary-condition dictionary maps every DOF to `'free'`), yet export attaches
a boundary-condition sub-entity (with all six stiffness flags false), because
the source tests the dictionary's non-emptiness rather than whether any DOF is
fixed. -/
theorem claim_C2_counterexample :
    (create_structural_node ndC2).appliedCondition
      = some ⟨false, false, false, false, false, false⟩ := by decide

/-- C2 (amended): the boundary-condition sub-entity is attached iff the node's
`boundary_conditions` dictionary is non-empty (not iff some DOF is fixed);
when attached, each stiffness flag records whether the corresponding DOF entry
equals `'fixed'`. -/
theorem claim_C2_amended (nd : NodeData) :
    ((create_structural_node nd).appliedCondition = none ↔ nd.boundary_conditions = []) ∧
    (nd.boundary_conditions ≠ [] →
      (create_structural_node nd).appliedCondition =
        some ⟨dictGet nd.boundary_conditions "translation_x" == some "fixed",
              dictGet nd.boundary_conditions "translation_y" == some "fixed",
              dictGet nd.boundary_conditions "translation_z" == some "fixed",
              dictGet nd.boundary_conditions "rotation_x" == some "fixed",
              dictGet nd.boundary_conditions "rotation_y" == some "fixed",
              dictGet nd.boundary_conditions "rotation_z" == some "fixed"⟩) := by
  cases h : nd.boundary_conditions with
  | nil => simp [create_structural_node, h]
  | cons a t => simp [create_structural_node, h]

/-- C2: witness for the amended theorem at concrete nodes. -/
theorem claim_C2_witness :
    (create_structural_node ⟨some "n0", some "N0", some [0, 0, 0], []⟩).appliedCondition
        = none ∧
    (create_structural_node ndC2).appliedCondition
        = some ⟨dictGet ndC2.boundary_conditions "translation_x" == some "fixed",
                dictGet ndC2.boundary_conditions "translation_y" == some "fixed",
                dictGet ndC2.boundary_conditions "translation_z" == some "fixed",
                dictGet ndC2.boundary_conditions "rotation_x" == some "fixed",
                dictGet ndC2.boundary_conditions "rotation_y" == some "fixed",
                dictGet ndC2.boundary_conditions "rotation_z" == some "fixed"⟩ :=
  ⟨(claim_C2_amended ⟨some "n0", some "N0", some [0, 0, 0], []⟩).1.mpr rfl,
   (claim_C2_amended ndC2).2 (by decide)⟩

/-! ## Claim C5 -/

/-- C5: counterexample.  A file holding a single profile entity of an
unrecognized class (`IfcCircleProfileDef`) yields a section list containing a
record for it — the unrecognized profile is not skipped. -/
theorem claim_C5_counterexample :
    extract_sections fileC5
      = [⟨0, some "C1", "IfcCircleProfileDef",
          ⟨"IfcCircleProfileDef", some "C1", .noDims⟩⟩] := by decide

/-- C5 (amended): on import every `IfcProfileDef` entity — of recognized class
or not — yields exactly one record in the returned section list; a record for
an unrecognized class carries only the type tag and name (no dimensional
properties), and no error is raised. -/
theorem claim_C5_amended (f : IfcFile) :
    (extract_sections f).length = (profilesOf f).length ∧
    ∀ pe ∈ profilesOf f, pe.2.typeTag ≠ "IfcRectangleProfileDef" →
      pe.2.typeTag ≠ "IfcIShapeProfileDef" →
      (⟨pe.1, pe.2.name, pe.2.typeTag, ⟨pe.2.typeTag, pe.2.name, .noDims⟩⟩ : SectionRecord)
        ∈ extract_sections f := by
  constructor
  · simp [extract_sections]
  · intro pe hmem h1 h2
    have hrec : (⟨pe.1, pe.2.name, pe.2.typeTag, extract_profile_data pe.2⟩ : SectionRecord)
        = ⟨pe.1, pe.2.name, pe.2.typeTag, ⟨pe.2.typeTag, pe.2.name, .noDims⟩⟩ := by
      cases hp : pe.2 with
      | rect n x y => rw [hp] at h1; exact absurd rfl h1
      | iShape n ow od wt ft => rw [hp] at h2; exact absurd rfl h2
      | other t n => rfl
    rw [← hrec]
    exact List.mem_map_of_mem _ hmem

/-- C5: witness for the amended theorem at the concrete file `fileC5`. -/
theorem claim_C5_witness :
    ((⟨0, some "C1", "IfcCircleProfileDef",
        ⟨"IfcCircleProfileDef", some "C1", .noDims⟩⟩ : SectionRecord)
      ∈ extract_sections fileC5) ∧
    (extract_sections fileC5).length = (profilesOf fileC5).length :=
  ⟨(claim_C5_amended fileC5).2 (0, .other "IfcCircleProfileDef" (some "C1"))
      (by decide) (by decide) (by decide),
   (claim_C5_amended fileC5).1⟩

/-! ## Claim C7 -/

/-- C7: `_extract_load_values` yields the empty value map (and no error) for a
load entity of unrecognized class, and for the two recognized classes extracts
six scalar components each defaulting to `0.0` when the source field is
absent. -/
theorem claim_C7_load_values :
    (∀ l : LoadEnt, l.typeTag ≠ "IfcStructuralLoadSingleForce" →
        l.typeTag ≠ "IfcStructuralLoadLinearForce" → extract_load_values l = []) ∧
    (∀ nm fx fy fz mx my mz, extract_load_values (.singleForce nm fx fy fz mx my mz)
        = [("force_x", fx.getD 0), ("force_y", fy.getD 0), ("force_z", fz.getD 0),
           ("moment_x", mx.getD 0), ("moment_y", my.getD 0), ("moment_z", mz.getD 0)]) ∧
    (∀ nm fx fy fz mx my mz, extract_load_values (.linearForce nm fx fy fz mx my mz)
        = [("linear_force_x", fx.getD 0), ("linear_force_y", fy.getD 0),
           ("linear_force_z", fz.getD 0), ("linear_moment_x", mx.getD 0),
           ("linear_moment_y", my.getD 0), ("linear_moment_z", mz.getD 0)]) := by
  refine ⟨?_, fun _ _ _ _ _ _ _ => rfl, fun _ _ _ _ _ _ _ => rfl⟩
  intro l h1 h2
  cases l with
  | singleForce nm fx fy fz mx my mz => exact absurd rfl h1
  | linearForce nm fx fy fz mx my mz => exact absurd rfl h2
  | otherLoad t n => rfl

/-- C7: witness at a concrete unrecognized load and a concrete partial
single-force load. -/
theorem claim_C7_witness :
    extract_load_values (.otherLoad "IfcStructuralLoadPlanarForce" none) = [] ∧
    extract_load_values (.singleForce none (some 5) none none none none none)
      = [("force_x", 5), ("force_y", 0), ("force_z", 0),
         ("moment_x", 0), ("moment_y", 0), ("moment_z", 0)] :=
  ⟨claim_C7_load_values.1 (.otherLoad "IfcStructuralLoadPlanarForce" none)
      (by decide) (by decide),
   by
    have h := claim_C7_load_values.2.1 none (some 5) none none none none none
    simpa using h⟩

/-! ## Claim C9 -/

/-- C9: a placement with a missing (`none`) or unresolvable parent reference
resolves to its own local transform (identity parent transform, no error),
and a point connection with no placement at all imports with coordinates
`[0, 0, 0]` rather than raising. -/
theorem claim_C9_placement_leniency (env : Nat → Option LocalPlacement) (fuel : Nat) :
    (∀ pc : PointConn, pc.objectPlacement = none →
        extract_point_coordinates env fuel pc = [0, 0, 0]) ∧
    (∀ p : LocalPlacement, p.placementRelTo = none →
        get_local_placement env (fuel + 1) p = p.relativePlacement) ∧
    (∀ p : LocalPlacement, ∀ r, p.placementRelTo = some r → env r = none →
        get_local_placement env (fuel + 1) p = p.relativePlacement) := by
  refine ⟨?_, ?_, ?_⟩
  · intro pc h
    unfold extract_point_coordinates
    rw [h]
  · intro p h
    simp [get_local_placement, h, Transform.identity_comp]
  · intro p r h1 h2
    simp [get_local_placement, h1, h2, Transform.identity_comp]

/-- C9: witness at concrete placements. -/
theorem claim_C9_witness :
    extract_point_coordinates env0 5 ⟨some "PC", none, none⟩ = [0, 0, 0] ∧
    get_local_placement env0 5 ⟨none, Transform.identity⟩ = Transform.identity ∧
    get_local_placement env0 5 ⟨some 7, Transform.identity⟩ = Transform.identity :=
  ⟨(claim_C9_placement_leniency env0 5).1 ⟨some "PC", none, none⟩ rfl,
   (claim_C9_placement_leniency env0 4).2.1 ⟨none, Transform.identity⟩ rfl,
   (claim_C9_placement_leniency env0 4).2.2 ⟨some 7, Transform.identity⟩ 7 rfl rfl⟩

/-! ## Claim C10 -/

/-- C10: the wall-typed records of the imported element list are exactly the
records of the walls having some defining property set whose (non-null,
non-empty) name contains `"structural"` case-insensitively; all other walls
are excluded, while every beam, column, slab and structural-member entity
contributes a record unconditionally (the output length is the sum of their
counts plus the structural-wall count). -/
theorem claim_C10_wall_filter (env : Nat → Option LocalPlacement) (fuel : Nat)
    (f : IfcFile) :
    ((extract_structural_elements env fuel f).filter (fun r => r.type == "wall"))
      = ((elementsOfKind f .wall).filter (fun we => is_structural_wall we.2)).map
          (fun we => extract_element_data env fuel we.1 we.2 "wall") ∧
    (∀ w : ElemCore, is_structural_wall w = true ↔ ∃ ps : PropSetEnt,
        RelDefines.byProperties ps ∈ w.isDefinedBy ∧ ∃ n, ps.psetName = some n ∧
          n ≠ "" ∧ strContainsSub (strToLower n) "structural" = true) ∧
    (extract_structural_elements env fuel f).length =
      (elementsOfKind f .beam).length + (elementsOfKind f .column).length
      + (elementsOfKind f .slab).length
      + ((elementsOfKind f .wall).filter (fun we => is_structural_wall we.2)).length
      + (elementsOfKind f .structuralMember).length := by
  refine ⟨?_, ?_, ?_⟩
  · have hbw : (("beam" : String) == "wall") = false := by decide
    have hcw : (("column" : String) == "wall") = false := by decide
    have hsw : (("slab" : String) == "wall") = false := by decide
    have hww : (("wall" : String) == "wall") = true := by decide
    have hmw : (("structural_member" : String) == "wall") = false := by decide
    simp [extract_structural_elements, List.filter_append, List.filter_map,
      Function.comp_def, extract_element_data, extract_structural_member_data,
      hbw, hcw, hsw, hww, hmw]
  · intro w
    unfold is_structural_wall
    rw [List.any_eq_true]
    constructor
    · rintro ⟨d, hd, hmatch⟩
      cases d with
      | byProperties ps =>
        cases hn : ps.psetName with
        | some n =>
          simp only [hn, Bool.and_eq_true] at hmatch
          refine ⟨ps, hd, n, hn, ?_, hmatch.2⟩
          have h1 := hmatch.1
          simpa using h1
        | none => simp only [hn] at hmatch; exact absurd hmatch (by simp)
      | otherRel t => simp at hmatch
    · rintro ⟨ps, hps, n, hn, hne, hsub⟩
      refine ⟨.byProperties ps, hps, ?_⟩
      simp [hn, hsub, hne]
  · simp [extract_structural_elements]
    omega

/-- C10: witness at a concrete file holding one structural wall, one
non-structural wall and one beam. -/
theorem claim_C10_witness :
    ((extract_structural_elements env0 0 fileC10).filter (fun r => r.type == "wall"))
      = [extract_element_data env0 0 0 wallStructural "wall"] ∧
    (extract_structural_elements env0 0 fileC10).length = 2 := by
  have h := claim_C10_wall_filter env0 0 fileC10
  refine ⟨?_, ?_⟩
  · rw [h.1]; decide
  · rw [h.2.2]; decide

/-! ## What each export step appends -/

theorem filterMap_addEntity {β : Type} (pr : Entity → Option β) (f : IfcFile)
    (mk : Nat → Entity) :
    (addEntity f mk).filterMap pr = f.filterMap pr ++ (pr (mk f.length)).toList := by
  cases h : pr (mk f.length) <;>
    simp [addEntity, List.filterMap_append, List.filterMap_cons, h]

theorem filterMap_foldl {α β : Type} (pr : Entity → Option β)
    (step : IfcFile → α → IfcFile) (q : α → Option β)
    (h : ∀ f a, (step f a).filterMap pr = f.filterMap pr ++ (q a).toList) :
    ∀ (l : List α) (f : IfcFile),
      (l.foldl step f).filterMap pr = f.filterMap pr ++ l.filterMap q := by
  intro l
  induction l with
  | nil => intro f; simp
  | cons a t ih =>
    intro f
    rw [List.foldl_cons, ih, h, List.filterMap_cons]
    cases q a <;> simp

theorem filterMap_const_none {α β : Type} (l : List α) :
    l.filterMap (fun _ => (none : Option β)) = [] := by
  induction l with
  | nil => rfl
  | cons a t ih => simp [List.filterMap_cons, ih]

theorem filterMap_const_some {α β : Type} (g : α → β) (l : List α) :
    l.filterMap (fun a => some (g a)) = l.map g := by
  induction l with
  | nil => rfl
  | cons a t ih => simp [List.filterMap_cons, ih]

theorem create_materials_fold (ms : List MaterialData) :
    ∀ (f : IfcFile) (m : EntityMap),
      (ms.foldl (fun acc material_data =>
          (addEntity acc.1 (create_material_entity material_data),
           dictInsert acc.2 material_data.id acc.1.length)) (f, m)).1
      = ms.foldl (fun acc material_data =>
          addEntity acc (create_material_entity material_data)) f := by
  induction ms with
  | nil => intro f m; rfl
  | cons md t ih =>
    intro f m
    simp only [List.foldl_cons]
    exact ih _ _

theorem create_materials_file (f : IfcFile) (ms : List MaterialData) :
    (create_materials f ms).1
      = ms.foldl (fun acc material_data =>
          addEntity acc (create_material_entity material_data)) f :=
  create_materials_fold ms f []

theorem create_sections_fold (ss : List SectionData) :
    ∀ (f : IfcFile) (m : EntityMap),
      (ss.foldl (fun acc section_data =>
          (addEntity acc.1 (fun g => .profileDef g (create_section_profile section_data)),
           dictInsert acc.2 section_data.id acc.1.length)) (f, m)).1
      = ss.foldl (fun acc section_data =>
          addEntity acc (fun g => .profileDef g (create_section_profile section_data))) f := by
  induction ss with
  | nil => intro f m; rfl
  | cons sd t ih =>
    intro f m
    simp only [List.foldl_cons]
    exact ih _ _

theorem create_sections_file (f : IfcFile) (ss : List SectionData) (mm : EntityMap) :
    (create_sections f ss mm).1
      = ss.foldl (fun acc section_data =>
          addEntity acc (fun g => .profileDef g (create_section_profile section_data))) f :=
  create_sections_fold ss f []

theorem create_structural_nodes_fold (ns : List NodeData) :
    ∀ (f : IfcFile) (m : EntityMap),
      (ns.foldl (fun acc node_data =>
          (addEntity acc.1 (fun g => .pointConnection g (create_structural_node node_data)),
           dictInsert acc.2 node_data.id acc.1.length)) (f, m)).1
      = ns.foldl (fun acc node_data =>
          addEntity acc (fun g => .pointConnection g (create_structural_node node_data))) f := by
  induction ns with
  | nil => intro f m; rfl
  | cons nd t ih =>
    intro f m
    simp only [List.foldl_cons]
    exact ih _ _

theorem create_structural_nodes_file (f : IfcFile) (ns : List NodeData) :
    (create_structural_nodes f ns).1
      = ns.foldl (fun acc node_data =>
          addEntity acc (fun g => .pointConnection g (create_structural_node node_data))) f :=
  create_structural_nodes_fold ns f []

theorem create_structural_elements_fold (es : List ElementData) :
    ∀ (f : IfcFile) (m : EntityMap),
      (es.foldl (fun acc element_data =>
          (addEntity acc.1 (fun g => .element g (create_structural_element element_data).1
            (create_structural_element element_data).2),
           dictInsert acc.2 element_data.id acc.1.length)) (f, m)).1
      = es.foldl (fun acc element_data =>
          addEntity acc (fun g => .element g (create_structural_element element_data).1
            (create_structural_element element_data).2)) f := by
  induction es with
  | nil => intro f m; rfl
  | cons ed t ih =>
    intro f m
    simp only [List.foldl_cons]
    exact ih _ _

theorem create_structural_elements_file (f : IfcFile) (es : List ElementData)
    (nm sm : EntityMap) :
    (create_structural_elements f es nm sm).1
      = es.foldl (fun acc element_data =>
          addEntity acc (fun g => .element g (create_structural_element element_data).1
            (create_structural_element element_data).2)) f :=
  create_structural_elements_fold es f []

theorem storeyPayloads_create_building_storeys (f : IfcFile) (ss : List SpatialItemData) :
    storeyPayloads (create_building_storeys f ss)
      = storeyPayloads f
        ++ (ss.filter (fun it => it.type == some "storey")).map storeyPayloadOf := by
  unfold create_building_storeys storeyPayloads
  refine (filterMap_foldl _ _ (fun sd => some (storeyPayloadOf sd)) ?_ _ f).trans ?_
  · intro f' sd
    rw [filterMap_addEntity]
    rfl
  · rw [filterMap_const_some]

theorem storeyPayloads_create_materials (f : IfcFile) (ms : List MaterialData) :
    storeyPayloads (create_materials f ms).1 = storeyPayloads f := by
  rw [create_materials_file]
  unfold storeyPayloads
  refine (filterMap_foldl _ _ (fun _ => (none : Option StoreyEnt)) ?_ ms f).trans ?_
  · intro f' md
    rw [filterMap_addEntity]
    rfl
  · rw [filterMap_const_none, List.append_nil]

theorem storeyPayloads_create_sections (f : IfcFile) (ss : List SectionData)
    (mm : EntityMap) :
    storeyPayloads (create_sections f ss mm).1 = storeyPayloads f := by
  rw [create_sections_file]
  unfold storeyPayloads
  refine (filterMap_foldl _ _ (fun _ => (none : Option StoreyEnt)) ?_ ss f).trans ?_
  · intro f' sd
    rw [filterMap_addEntity]
  · rw [filterMap_const_none, List.append_nil]

theorem storeyPayloads_create_structural_nodes (f : IfcFile) (ns : List NodeData) :
    storeyPayloads (create_structural_nodes f ns).1 = storeyPayloads f := by
  rw [create_structural_nodes_file]
  unfold storeyPayloads
  refine (filterMap_foldl _ _ (fun _ => (none : Option StoreyEnt)) ?_ ns f).trans ?_
  · intro f' nd
    rw [filterMap_addEntity]
  · rw [filterMap_const_none, List.append_nil]

theorem storeyPayloads_create_structural_elements (f : IfcFile) (es : List ElementData)
    (nm sm : EntityMap) :
    storeyPayloads (create_structural_elements f es nm sm).1 = storeyPayloads f := by
  rw [create_structural_elements_file]
  unfold storeyPayloads
  refine (filterMap_foldl _ _ (fun _ => (none : Option StoreyEnt)) ?_ es f).trans ?_
  · intro f' ed
    rw [filterMap_addEntity]
  · rw [filterMap_const_none, List.append_nil]

theorem storeyPayloads_create_loads (f : IfcFile) (ls : List LoadData)
    (nm em : EntityMap) :
    storeyPayloads (create_loads f ls nm em) = storeyPayloads f := by
  unfold create_loads storeyPayloads
  refine (filterMap_foldl _ _ (fun _ => (none : Option StoreyEnt)) ?_ ls f).trans ?_
  · intro f' ld
    dsimp only
    split
    · rw [filterMap_addEntity]
    · simp
  · rw [filterMap_const_none, List.append_nil]

theorem storeyPayloads_create_load_cases (f : IfcFile) (lcs : List LoadCaseData) :
    storeyPayloads (create_load_cases f lcs) = storeyPayloads f := by
  unfold create_load_cases storeyPayloads
  refine (filterMap_foldl _ _ (fun _ => (none : Option StoreyEnt)) ?_ lcs f).trans ?_
  · intro f' lc
    rw [filterMap_addEntity]
  · rw [filterMap_const_none, List.append_nil]

theorem export_storeyPayloads (p : Processor) (d : StructuralData) :
    storeyPayloads (export_structural_model p d).2
      = storeyPayloads (sessionFile p d)
        ++ (d.spatial_structure.filter (fun it => it.type == some "storey")).map
            storeyPayloadOf := by
  simp only [export_structural_model]
  rw [storeyPayloads_create_load_cases, storeyPayloads_create_loads,
    storeyPayloads_create_structural_elements, storeyPayloads_create_structural_nodes,
    storeyPayloads_create_sections, storeyPayloads_create_materials,
    storeyPayloads_create_building_storeys]

theorem materialPayloads_create_building_storeys (f : IfcFile) (ss : List SpatialItemData) :
    materialPayloads (create_building_storeys f ss) = materialPayloads f := by
  unfold create_building_storeys materialPayloads
  refine (filterMap_foldl _ _ (fun _ => (none : Option MaterialEnt)) ?_ _ f).trans ?_
  · intro f' sd
    rw [filterMap_addEntity]
    rfl
  · rw [filterMap_const_none, List.append_nil]

theorem materialPayloads_create_materials (f : IfcFile) (ms : List MaterialData) :
    materialPayloads (create_materials f ms).1 = materialPayloads f ++ ms.map materialPayloadOf := by
  rw [create_materials_file]
  unfold materialPayloads
  refine (filterMap_foldl _ _ (fun md => some (materialPayloadOf md)) ?_ ms f).trans ?_
  · intro f' md
    rw [filterMap_addEntity]
    rfl
  · rw [filterMap_const_some]

theorem materialPayloads_create_sections (f : IfcFile) (ss : List SectionData) (mm : EntityMap) :
    materialPayloads (create_sections f ss mm).1 = materialPayloads f := by
  rw [create_sections_file]
  unfold materialPayloads
  refine (filterMap_foldl _ _ (fun _ => (none : Option MaterialEnt)) ?_ ss f).trans ?_
  · intro f' sd
    rw [filterMap_addEntity]
  · rw [filterMap_const_none, List.append_nil]

theorem materialPayloads_create_structural_nodes (f : IfcFile) (ns : List NodeData) :
    materialPayloads (create_structural_nodes f ns).1 = materialPayloads f := by
  rw [create_structural_nodes_file]
  unfold materialPayloads
  refine (filterMap_foldl _ _ (fun _ => (none : Option MaterialEnt)) ?_ ns f).trans ?_
  · intro f' nd
    rw [filterMap_addEntity]
  · rw [filterMap_const_none, List.append_nil]

theorem materialPayloads_create_structural_elements (f : IfcFile) (es : List ElementData) (nm sm : EntityMap) :
    materialPayloads (create_structural_elements f es nm sm).1 = materialPayloads f := by
  rw [create_structural_elements_file]
  unfold materialPayloads
  refine (filterMap_foldl _ _ (fun _ => (none : Option MaterialEnt)) ?_ es f).trans ?_
  · intro f' ed
    rw [filterMap_addEntity]
  · rw [filterMap_const_none, List.append_nil]

theorem materialPayloads_create_loads (f : IfcFile) (ls : List LoadData) (nm em : EntityMap) :
    materialPayloads (create_loads f ls nm em) = materialPayloads f := by
  unfold create_loads materialPayloads
  refine (filterMap_foldl _ _ (fun _ => (none : Option MaterialEnt)) ?_ ls f).trans ?_
  · intro f' ld
    dsimp only
    split
    · rw [filterMap_addEntity]
    · simp
  · rw [filterMap_const_none, List.append_nil]

theorem materialPayloads_create_load_cases (f : IfcFile) (lcs : List LoadCaseData) :
    materialPayloads (create_load_cases f lcs) = materialPayloads f := by
  unfold create_load_cases materialPayloads
  refine (filterMap_foldl _ _ (fun _ => (none : Option MaterialEnt)) ?_ lcs f).trans ?_
  · intro f' lc
    rw [filterMap_addEntity]
  · rw [filterMap_const_none, List.append_nil]

theorem export_materialPayloads (p : Processor) (d : StructuralData) :
    materialPayloads (export_structural_model p d).2
      = materialPayloads (sessionFile p d) ++ d.materials.map materialPayloadOf := by
  simp only [export_structural_model]
  rw [materialPayloads_create_load_cases, materialPayloads_create_loads,
    materialPayloads_create_structural_elements, materialPayloads_create_structural_nodes,
    materialPayloads_create_sections, materialPayloads_create_materials,
    materialPayloads_create_building_storeys]

theorem profilePayloads_create_building_storeys (f : IfcFile) (ss : List SpatialItemData) :
    profilePayloads (create_building_storeys f ss) = profilePayloads f := by
  unfold create_building_storeys profilePayloads
  refine (filterMap_foldl _ _ (fun _ => (none : Option Profile)) ?_ _ f).trans ?_
  · intro f' sd
    rw [filterMap_addEntity]
    rfl
  · rw [filterMap_const_none, List.append_nil]

theorem profilePayloads_create_materials (f : IfcFile) (ms : List MaterialData) :
    profilePayloads (create_materials f ms).1 = profilePayloads f := by
  rw [create_materials_file]
  unfold profilePayloads
  refine (filterMap_foldl _ _ (fun _ => (none : Option Profile)) ?_ ms f).trans ?_
  · intro f' md
    rw [filterMap_addEntity]
    rfl
  · rw [filterMap_const_none, List.append_nil]

theorem profilePayloads_create_sections (f : IfcFile) (ss : List SectionData) (mm : EntityMap) :
    profilePayloads (create_sections f ss mm).1 = profilePayloads f ++ ss.map create_section_profile := by
  rw [create_sections_file]
  unfold profilePayloads
  refine (filterMap_foldl _ _ (fun sd => some (create_section_profile sd)) ?_ ss f).trans ?_
  · intro f' sd
    rw [filterMap_addEntity]
  · rw [filterMap_const_some]

theorem profilePayloads_create_structural_nodes (f : IfcFile) (ns : List NodeData) :
    profilePayloads (create_structural_nodes f ns).1 = profilePayloads f := by
  rw [create_structural_nodes_file]
  unfold profilePayloads
  refine (filterMap_foldl _ _ (fun _ => (none : Option Profile)) ?_ ns f).trans ?_
  · intro f' nd
    rw [filterMap_addEntity]
  · rw [filterMap_const_none, List.append_nil]

theorem profilePayloads_create_structural_elements (f : IfcFile) (es : List ElementData) (nm sm : EntityMap) :
    profilePayloads (create_structural_elements f es nm sm).1 = profilePayloads f := by
  rw [create_structural_elements_file]
  unfold profilePayloads
  refine (filterMap_foldl _ _ (fun _ => (none : Option Profile)) ?_ es f).trans ?_
  · intro f' ed
    rw [filterMap_addEntity]
  · rw [filterMap_const_none, List.append_nil]

theorem profilePayloads_create_loads (f : IfcFile) (ls : List LoadData) (nm em : EntityMap) :
    profilePayloads (create_loads f ls nm em) = profilePayloads f := by
  unfold create_loads profilePayloads
  refine (filterMap_foldl _ _ (fun _ => (none : Option Profile)) ?_ ls f).trans ?_
  · intro f' ld
    dsimp only
    split
    · rw [filterMap_addEntity]
    · simp
  · rw [filterMap_const_none, List.append_nil]

theorem profilePayloads_create_load_cases (f : IfcFile) (lcs : List LoadCaseData) :
    profilePayloads (create_load_cases f lcs) = profilePayloads f := by
  unfold create_load_cases profilePayloads
  refine (filterMap_foldl _ _ (fun _ => (none : Option Profile)) ?_ lcs f).trans ?_
  · intro f' lc
    rw [filterMap_addEntity]
  · rw [filterMap_const_none, List.append_nil]

theorem export_profilePayloads (p : Processor) (d : StructuralData) :
    profilePayloads (export_structural_model p d).2
      = profilePayloads (sessionFile p d) ++ d.sections.map create_section_profile := by
  simp only [export_structural_model]
  rw [profilePayloads_create_load_cases, profilePayloads_create_loads,
    profilePayloads_create_structural_elements, profilePayloads_create_structural_nodes,
    profilePayloads_create_sections, profilePayloads_create_materials,
    profilePayloads_create_building_storeys]

theorem pointConnPayloads_create_building_storeys (f : IfcFile) (ss : List SpatialItemData) :
    pointConnPayloads (create_building_storeys f ss) = pointConnPayloads f := by
  unfold create_building_storeys pointConnPayloads
  refine (filterMap_foldl _ _ (fun _ => (none : Option PointConn)) ?_ _ f).trans ?_
  · intro f' sd
    rw [filterMap_addEntity]
    rfl
  · rw [filterMap_const_none, List.append_nil]

theorem pointConnPayloads_create_materials (f : IfcFile) (ms : List MaterialData) :
    pointConnPayloads (create_materials f ms).1 = pointConnPayloads f := by
  rw [create_materials_file]
  unfold pointConnPayloads
  refine (filterMap_foldl _ _ (fun _ => (none : Option PointConn)) ?_ ms f).trans ?_
  · intro f' md
    rw [filterMap_addEntity]
    rfl
  · rw [filterMap_const_none, List.append_nil]

theorem pointConnPayloads_create_sections (f : IfcFile) (ss : List SectionData) (mm : EntityMap) :
    pointConnPayloads (create_sections f ss mm).1 = pointConnPayloads f := by
  rw [create_sections_file]
  unfold pointConnPayloads
  refine (filterMap_foldl _ _ (fun _ => (none : Option PointConn)) ?_ ss f).trans ?_
  · intro f' sd
    rw [filterMap_addEntity]
  · rw [filterMap_const_none, List.append_nil]

theorem pointConnPayloads_create_structural_nodes (f : IfcFile) (ns : List NodeData) :
    pointConnPayloads (create_structural_nodes f ns).1 = pointConnPayloads f ++ ns.map create_structural_node := by
  rw [create_structural_nodes_file]
  unfold pointConnPayloads
  refine (filterMap_foldl _ _ (fun nd => some (create_structural_node nd)) ?_ ns f).trans ?_
  · intro f' nd
    rw [filterMap_addEntity]
  · rw [filterMap_const_some]

theorem pointConnPayloads_create_structural_elements (f : IfcFile) (es : List ElementData) (nm sm : EntityMap) :
    pointConnPayloads (create_structural_elements f es nm sm).1 = pointConnPayloads f := by
  rw [create_structural_elements_file]
  unfold pointConnPayloads
  refine (filterMap_foldl _ _ (fun _ => (none : Option PointConn)) ?_ es f).trans ?_
  · intro f' ed
    rw [filterMap_addEntity]
  · rw [filterMap_const_none, List.append_nil]

theorem pointConnPayloads_create_loads (f : IfcFile) (ls : List LoadData) (nm em : EntityMap) :
    pointConnPayloads (create_loads f ls nm em) = pointConnPayloads f := by
  unfold create_loads pointConnPayloads
  refine (filterMap_foldl _ _ (fun _ => (none : Option PointConn)) ?_ ls f).trans ?_
  · intro f' ld
    dsimp only
    split
    · rw [filterMap_addEntity]
    · simp
  · rw [filterMap_const_none, List.append_nil]

theorem pointConnPayloads_create_load_cases (f : IfcFile) (lcs : List LoadCaseData) :
    pointConnPayloads (create_load_cases f lcs) = pointConnPayloads f := by
  unfold create_load_cases pointConnPayloads
  refine (filterMap_foldl _ _ (fun _ => (none : Option PointConn)) ?_ lcs f).trans ?_
  · intro f' lc
    rw [filterMap_addEntity]
  · rw [filterMap_const_none, List.append_nil]

theorem export_pointConnPayloads (p : Processor) (d : StructuralData) :
    pointConnPayloads (export_structural_model p d).2
      = pointConnPayloads (sessionFile p d) ++ d.nodes.map create_structural_node := by
  simp only [export_structural_model]
  rw [pointConnPayloads_create_load_cases, pointConnPayloads_create_loads,
    pointConnPayloads_create_structural_elements, pointConnPayloads_create_structural_nodes,
    pointConnPayloads_create_sections, pointConnPayloads_create_materials,
    pointConnPayloads_create_building_storeys]

/-! ## Claim C6 -/

/-- C6: a section whose profile kind is neither rectangle nor I-shape exports
as a rectangle profile with width 300 and height 600 exactly, and that profile
entity appears in the exported graph (the export is total — it never fails on
an unsupported profile kind). -/
theorem claim_C6_profile_fallback (sd : SectionData) (t : String)
    (h1 : sd.type = some t) (h2 : t ≠ "IfcRectangleProfileDef")
    (h3 : t ≠ "IfcIShapeProfileDef") (p : Processor) (d : StructuralData)
    (hmem : sd ∈ d.sections) :
    create_section_profile sd = .rect (some (sd.name.getD "Section")) 300 600 ∧
    Profile.rect (some (sd.name.getD "Section")) 300 600
      ∈ profilePayloads (export_structural_model p d).2 := by
  have e1 : (t == "IfcRectangleProfileDef") = false := beq_eq_false_iff_ne.mpr h2
  have e2 : (t == "IfcIShapeProfileDef") = false := beq_eq_false_iff_ne.mpr h3
  have heq : create_section_profile sd
      = .rect (some (sd.name.getD "Section")) 300 600 := by
    simp [create_section_profile, h1, e1, e2]
  refine ⟨heq, ?_⟩
  rw [export_profilePayloads]
  refine List.mem_append_right _ ?_
  rw [← heq]
  exact List.mem_map_of_mem _ hmem

/-- C6: witness at a concrete circle-profile section. -/
theorem claim_C6_witness :
    create_section_profile sdC6 = .rect (some "S") 300 600 ∧
    Profile.rect (some "S") 300 600
      ∈ profilePayloads (export_structural_model Processor.init dC6).2 :=
  claim_C6_profile_fallback sdC6 "IfcCircleProfileDef" rfl
    (by decide) (by decide) Processor.init dC6 (by decide)

/-! ## Claim C3 -/

/-- C3: counterexample.  Exporting the same one-storey bundle twice on the
same processor yields a second graph holding two storey entities (nine
entities against the first call's eight): repeated export calls duplicate
the storey instead of producing one entity per logical id, and the two graphs
do not have identical entity counts. -/
theorem claim_C3_counterexample :
    (storeyPayloads (export_structural_model Processor.init dC3).2).length = 1 ∧
    (export_structural_model Processor.init dC3).2.length = 8 ∧
    (storeyPayloads (export_structural_model
        (export_structural_model Processor.init dC3).1 dC3).2).length = 2 ∧
    (export_structural_model
        (export_structural_model Processor.init dC3).1 dC3).2.length = 9 := by
  decide

/-- C3 (amended): each export call appends to the session file one fresh
storey entity per storey record, one material entity per material record, one
profile entity per section record and one point connection per node record;
on a processor already holding a file the previous session's entities remain,
so repeated export calls on the same processor accumulate duplicates instead
of reusing one entity per logical id (while two exports on fresh processors
agree, the model being deterministic). -/
theorem claim_C3_amended (p : Processor) (d : StructuralData) (f : IfcFile)
    (hf : p.ifc_file = some f) :
    storeyPayloads (export_structural_model p d).2
        = storeyPayloads f
          ++ (d.spatial_structure.filter (fun it => it.type == some "storey")).map
              storeyPayloadOf ∧
    materialPayloads (export_structural_model p d).2
        = materialPayloads f ++ d.materials.map materialPayloadOf ∧
    profilePayloads (export_structural_model p d).2
        = profilePayloads f ++ d.sections.map create_section_profile ∧
    pointConnPayloads (export_structural_model p d).2
        = pointConnPayloads f ++ d.nodes.map create_structural_node := by
  have hs : sessionFile p d = f := by
    simp [sessionFile, sessionProcessor, hf]
  exact ⟨by rw [export_storeyPayloads, hs], by rw [export_materialPayloads, hs],
    by rw [export_profilePayloads, hs], by rw [export_pointConnPayloads, hs]⟩

/-- C3: witness for the amended theorem — a second export on the processor
returned by a first export appends one more storey payload. -/
theorem claim_C3_witness :
    storeyPayloads (export_structural_model
        (export_structural_model Processor.init dC3).1 dC3).2
      = storeyPayloads (export_structural_model Processor.init dC3).2
        ++ [storeyPayloadOf stC3] :=
  ((claim_C3_amended (export_structural_model Processor.init dC3).1 dC3
      (export_structural_model Processor.init dC3).2 rfl).1).trans (by decide)

/-! ## Claim C1 -/

/-- C1: counterexample.  The bundle `dC1` holds one element whose node pair
references ids `"n1"`, `"n2"` and whose section reference is `"s1"`, while the
bundle's node and section lists are empty, so the node/section maps built by
export cannot resolve them; the claim says export raises and returns no
graph, but export returns a complete 8-entity graph containing the beam. -/
theorem claim_C1_counterexample :
    elementPayloads (export_structural_model Processor.init dC1).2
      = [(.beam, exportElemCore "B1")] ∧
    (export_structural_model Processor.init dC1).2.length = 8 := by
  decide

theorem foldl_elements_map_refs (g : ElementData → Option (String × String))
    (h : ElementData → Option String) :
    ∀ (es : List ElementData) (acc : IfcFile × EntityMap),
      ((es.map (fun e => { e with node_ids := g e, section_id := h e })).foldl
        (fun acc element_data =>
          let ke := create_structural_element element_data
          (addEntity acc.1 (fun gg => .element gg ke.1 ke.2),
           dictInsert acc.2 element_data.id acc.1.length)) acc)
      = es.foldl (fun acc element_data =>
          let ke := create_structural_element element_data
          (addEntity acc.1 (fun gg => .element gg ke.1 ke.2),
           dictInsert acc.2 element_data.id acc.1.length)) acc := by
  intro es
  induction es with
  | nil => intro acc; rfl
  | cons e t ih =>
    intro acc
    simp only [List.map_cons, List.foldl_cons]
    exact ih _

theorem create_structural_elements_ignore_refs
    (g : ElementData → Option (String × String)) (h : ElementData → Option String)
    (es : List ElementData) (f : IfcFile) (nm sm : EntityMap) :
    create_structural_elements f
        (es.map (fun e => { e with node_ids := g e, section_id := h e })) nm sm
      = create_structural_elements f es nm sm := by
  unfold create_structural_elements
  exact foldl_elements_map_refs g h es (f, [])

theorem export_ignores_element_refs (p : Processor) (d : StructuralData)
    (g : ElementData → Option (String × String)) (h : ElementData → Option String) :
    export_structural_model p
        { d with elements := d.elements.map (fun e =>
            { e with node_ids := g e, section_id := h e }) }
      = export_structural_model p d := by
  simp only [export_structural_model]
  rw [create_structural_elements_ignore_refs]
  rfl

/-- C1 (amended): export never raises on an element whose node-pair or
section references do not resolve: `_create_structural_elements` never
consults the node/section maps, the created element entities carry no node or
section references, and the export output is therefore invariant under
arbitrary rewriting of every element's node pair and section reference — a
complete graph is returned regardless. -/
theorem claim_C1_amended (p : Processor) (d : StructuralData)
    (g : ElementData → Option (String × String)) (h : ElementData → Option String) :
    export_structural_model p
        { d with elements := d.elements.map (fun e =>
            { e with node_ids := g e, section_id := h e }) }
      = export_structural_model p d :=
  export_ignores_element_refs p d g h

/-! ## Claim C4 -/

theorem snd_pointConnectionsOf (f : IfcFile) :
    (pointConnectionsOf f).map Prod.snd = pointConnPayloads f := by
  induction f with
  | nil => rfl
  | cons e t ih =>
    cases e <;> simp [pointConnectionsOf, pointConnPayloads, List.filterMap_cons, ih] <;>
      simpa [pointConnectionsOf, pointConnPayloads] using ih

theorem map_coordinates_extract (env : Nat → Option LocalPlacement) (fuel : Nat)
    (file : IfcFile) :
    (extract_structural_nodes env fuel file).map (fun nr => nr.coordinates)
      = (pointConnPayloads file).map (extract_point_coordinates env fuel) := by
  calc (extract_structural_nodes env fuel file).map (fun nr => nr.coordinates)
      = (pointConnectionsOf file).enum.map
          (fun ic => extract_point_coordinates env fuel ic.2.2) := by
        unfold extract_structural_nodes
        rw [List.map_map]
        rfl
    _ = ((pointConnectionsOf file).enum.map Prod.snd).map
          (fun c => extract_point_coordinates env fuel c.2) := by
        rw [List.map_map]
        rfl
    _ = (pointConnectionsOf file).map (fun c => extract_point_coordinates env fuel c.2) := by
        rw [List.enum_map_snd]
    _ = ((pointConnectionsOf file).map Prod.snd).map (extract_point_coordinates env fuel) := by
        rw [List.map_map]
        rfl
    _ = (pointConnPayloads file).map (extract_point_coordinates env fuel) := by
        rw [snd_pointConnectionsOf]

theorem extract_create_node_coordinates (env : Nat → Option LocalPlacement)
    (fuel : Nat) (nd : NodeData)
    (h : (nd.coordinates.getD [0, 0, 0]).length = 3) :
    extract_point_coordinates env fuel (create_structural_node nd)
      = nd.coordinates.getD [0, 0, 0] := by
  unfold extract_point_coordinates create_structural_node
  dsimp only
  rw [get_local_placement_no_parent]
  exact vecToList_listToVec _ h

theorem roundTrip_node_coordinates (env : Nat → Option LocalPlacement) (fuel : Nat)
    (d : StructuralData)
    (h3 : ∀ nd ∈ d.nodes, (nd.coordinates.getD [0, 0, 0]).length = 3) :
    (roundTrip env fuel d).nodes.map (fun nr => nr.coordinates)
      = d.nodes.map (fun nd => nd.coordinates.getD [0, 0, 0]) := by
  unfold roundTrip import_structural_model
  dsimp only
  rw [map_coordinates_extract]
  have hconn : pointConnPayloads (export_structural_model Processor.init d).2
      = d.nodes.map create_structural_node := by
    rw [export_pointConnPayloads]
    have hnil : pointConnPayloads (sessionFile Processor.init d) = [] := rfl
    rw [hnil, List.nil_append]
  rw [hconn, List.map_map]
  refine List.map_eq_map_iff.mpr ?_
  intro nd hnd
  exact extract_create_node_coordinates env fuel nd (h3 nd hnd)

/-- C4: counterexample.  Two bundles that differ only in the order of one
element's node pair produce identical round-trip outputs: the exported element
entities carry no node references and the importer extracts none, so the
ordered node pair cannot be preserved under any id mapping. -/
theorem claim_C4_counterexample :
    roundTrip env0 0 dC4a = roundTrip env0 0 dC4b ∧ dC4a ≠ dC4b := by
  decide

/-- C4 (amended): round-tripping a domain bundle through export and import
preserves every node's coordinates exactly (hence within any tolerance), in
order; element node-reference pairs are NOT preserved — the round trip is
invariant under arbitrary rewriting of every element's node pair and section
reference, so the pair cannot be recovered from the imported data. -/
theorem claim_C4_amended (env : Nat → Option LocalPlacement) (fuel : Nat)
    (d : StructuralData)
    (h3 : ∀ nd ∈ d.nodes, (nd.coordinates.getD [0, 0, 0]).length = 3)
    (g : ElementData → Option (String × String)) (h : ElementData → Option String) :
    ((roundTrip env fuel d).nodes.map (fun nr => nr.coordinates)
        = d.nodes.map (fun nd => nd.coordinates.getD [0, 0, 0])) ∧
    roundTrip env fuel { d with elements := d.elements.map (fun e =>
        { e with node_ids := g e, section_id := h e }) }
      = roundTrip env fuel d := by
  refine ⟨roundTrip_node_coordinates env fuel d h3, ?_⟩
  unfold roundTrip
  rw [export_ignores_element_refs]

/-- C4: witness for the amended theorem at a concrete one-node bundle. -/
theorem claim_C4_witness :
    (roundTrip env0 0 dC4a).nodes.map (fun nr => nr.coordinates) = [[1, 2, 3]] ∧
    roundTrip env0 0 { dC4a with elements := dC4a.elements.map (fun e =>
        { e with node_ids := some ("n9", "n8"), section_id := none }) }
      = roundTrip env0 0 dC4a := by
  have h := claim_C4_amended env0 0 dC4a (by decide)
    (fun _ => some ("n9", "n8")) (fun _ => none)
  exact ⟨h.1.trans (by decide), h.2⟩

/-! ## Claim C8 -/

theorem setFirstApplication_of_no_apps :
    ∀ (f : IfcFile), applicationsOf f = [] → ∀ n v, setFirstApplication f n v = f := by
  intro f
  induction f with
  | nil => intro _ n v; rfl
  | cons e t ih =>
    intro happ n v
    cases e
    case application g fn ver => simp [applicationsOf, List.filterMap_cons] at happ
    all_goals exact congrArg (List.cons _) (ih happ n v)

theorem configure_for_revit_of_no_apps (p : Processor) (f : IfcFile)
    (hf : p.ifc_file = some f) (happ : applicationsOf f = []) :
    configure_for_revit p = .ok p := by
  cases p with
  | mk pf pr ps pb =>
    simp only at hf
    subst hf
    simp only [configure_for_revit]
    rw [setFirstApplication_of_no_apps f happ]

theorem configure_for_tekla_of_no_apps (p : Processor) (f : IfcFile)
    (hf : p.ifc_file = some f) (happ : applicationsOf f = []) :
    configure_for_tekla p = .ok p := by
  cases p with
  | mk pf pr ps pb =>
    simp only at hf
    subst hf
    simp only [configure_for_tekla]
    rw [setFirstApplication_of_no_apps f happ]

/-- C8: on a fresh processor (no IFC file yet) the target-tool export variants
raise (they dereference the absent file before the plain export's
create-if-missing check), while the plain export succeeds and returns a
7-entity graph; on a processor already holding a file with no application
entity, each variant is exactly the metadata-configuration step followed by
the unchanged plain export. -/
theorem claim_C8_variant_divergence :
    (export_for_revit Processor.init dEmpty).toOption = none ∧
    (export_for_tekla Processor.init dEmpty).toOption = none ∧
    (export_structural_model Processor.init dEmpty).2.length = 7 ∧
    (∀ (p : Processor) (f : IfcFile) (d : StructuralData), p.ifc_file = some f →
        applicationsOf f = [] →
        export_for_revit p d = Except.ok (export_structural_model p d) ∧
        export_for_tekla p d = Except.ok (export_structural_model p d)) := by
  refine ⟨by decide, by decide, by decide, ?_⟩
  intro p f d hf happ
  constructor
  · unfold export_for_revit
    rw [configure_for_revit_of_no_apps p f hf happ]
    rfl
  · unfold export_for_tekla
    rw [configure_for_tekla_of_no_apps p f hf happ]
    rfl

/-- C8: witness — the file-present case at a concrete processor, plus the
fresh-processor failure. -/
theorem claim_C8_witness :
    export_for_revit pC8 dEmpty = Except.ok (export_structural_model pC8 dEmpty) ∧
    (export_for_revit Processor.init dEmpty).toOption = none :=
  ⟨(claim_C8_variant_divergence.2.2.2 pC8 [.project 0 (some "P") none] dEmpty
      rfl rfl).1,
   claim_C8_variant_divergence.1⟩

end Strumind
